import Mathlib

/-
Verification of the D-Bus proxy declaration in
src/extensions/core/src/dbus/inputplumber/gamepad.rs.

The source declares a zbus client proxy for the interface
`org.shadowblip.Input.Gamepad` with a fixed default service and object
path and a single read-only `Name` property getter.  The declaration
itself is pure data (an attribute with three string identifiers and one
trait item); the behaviour of the generated accessor is the generic
property-get protocol of the bus client library, which we model from
the specification where noted.
-/

namespace OpenGamepadUI

/-- A D-Bus value as far as this proxy decodes it: either a string
(the only payload type the `Name` accessor accepts) or a value of any
other wire type, which the accessor fails to decode. -/
inductive DBusValue where
  | str (s : String)
  | nonString
deriving DecidableEq

/-- The addressing triple of a remote object: bus (service) name,
object path, and interface name. -/
structure BusAddress where
  service : String
  path : String
  iface : String
deriving DecidableEq

/-- Transcribed from the `#[proxy(...)]` attribute in gamepad.rs:
`interface = "org.shadowblip.Input.Gamepad"`. -/
def Gamepad.interface : String := "org.shadowblip.Input.Gamepad"

/-- Transcribed from the `#[proxy(...)]` attribute in gamepad.rs:
`default_service = "org.shadowblip.InputPlumber"`. -/
def Gamepad.default_service : String := "org.shadowblip.InputPlumber"

/-- Transcribed from the `#[proxy(...)]` attribute in gamepad.rs:
`default_path = "/org/shadowblip/InputPlumber/devices/target/gamepad0"`. -/
def Gamepad.default_path : String := "/org/shadowblip/InputPlumber/devices/target/gamepad0"

/-- The causes a remote property read can fail with. -/
inductive ErrorCause where
  | connectionUnavailable
  | objectNotFound
  | propertyNotImplemented
  | decodeFailure
deriving DecidableEq

/-- The single error kind surfaced to callers of the proxy: a remote
call failure carrying its underlying cause (the embedding of
`zbus::Error`). -/
structure RemoteCallError where
  cause : ErrorCause
deriving DecidableEq

/-- A remote object on the bus: its properties, keyed by the pair of
interface name and property name. -/
structure RemoteObject where
  props : List ((String × String) × DBusValue)
deriving DecidableEq

/-- The observable state of the bus from the client side: whether the
connection is up, and the objects reachable on it, keyed by the pair
of service name and object path. -/
structure BusState where
  connected : Bool
  objects : List ((String × String) × RemoteObject)
deriving DecidableEq

/-- First-match association-list lookup. -/
def lookupKey {α β : Type} [DecidableEq α] : List (α × β) → α → Option β
  | [], _ => none
  | (k, v) :: rest, a => if k = a then some v else lookupKey rest a

/-- A property-get request as put on the wire: the addressing triple
and the property name. -/
structure PropertyGetRequest where
  addr : BusAddress
  prop : String
deriving DecidableEq

/-- Modelled from the spec: the generic "get property by interface and
name" call of the bus client library (the library itself is not part
of the repository source; only the proxy declaration is).  It fails
with a communication error if the bus connection is unavailable, the
remote object does not exist, or the remote service does not implement
the property; otherwise it returns the raw property value. -/
def getProperty (st : BusState) (a : BusAddress) (prop : String) :
    Except RemoteCallError DBusValue :=
  if st.connected then
    match lookupKey st.objects (a.service, a.path) with
    | none => Except.error ⟨ErrorCause.objectNotFound⟩
    | some obj =>
      match lookupKey obj.props (a.iface, prop) with
      | none => Except.error ⟨ErrorCause.propertyNotImplemented⟩
      | some v => Except.ok v
  else Except.error ⟨ErrorCause.connectionUnavailable⟩

/-- Decoding the reply payload as a string, the return type declared
by `fn name(&self) -> zbus::Result<String>` in gamepad.rs. -/
def decodeString : DBusValue → Except RemoteCallError String
  | DBusValue.str s => Except.ok s
  | DBusValue.nonString => Except.error ⟨ErrorCause.decodeFailure⟩

/-- The proxy value generated from `trait Gamepad`: a borrowed
connection handle plus the addressing data.  The interface name is
fixed by the declaration; service and path have the declared defaults
but are overridable at construction, as in zbus. -/
structure GamepadProxy where
  conn : Nat
  service : String
  path : String
deriving DecidableEq

/-- Construction of the proxy with the declared default service and
path, binding the given connection. -/
def GamepadProxy.new (conn : Nat) : GamepadProxy :=
  ⟨conn, Gamepad.default_service, Gamepad.default_path⟩

/-- The addressing triple a proxy value is bound to: its service and
path together with the fixed interface name from the declaration. -/
def GamepadProxy.addr (p : GamepadProxy) : BusAddress :=
  ⟨p.service, p.path, Gamepad.interface⟩

/-- The single request the `name` accessor puts on the wire: a
property get for `"Name"` at the proxy's addressing triple. -/
def GamepadProxy.nameRequest (p : GamepadProxy) : PropertyGetRequest :=
  ⟨p.addr, "Name"⟩

/-- The reply the bus delivers to a property-get request in a given
bus state. -/
def busReply (st : BusState) (r : PropertyGetRequest) :
    Except RemoteCallError DBusValue :=
  getProperty st r.addr r.prop

/-- Modelled from the spec: the accessor generated by the zbus proxy
macro for `fn name(&self) -> zbus::Result<String>` — issue one
property-get request for `Name` at the proxy's addressing triple and
decode the reply as a string, propagating any failure unchanged. -/
def GamepadProxy.name (p : GamepadProxy) (st : BusState) :
    Except RemoteCallError String :=
  match busReply st p.nameRequest with
  | Except.error e => Except.error e
  | Except.ok v => decodeString v

/-- Modelled from the spec: one invocation of the accessor, observed
together with the requests it puts on the wire.  The property is not
cached locally, so every invocation performs exactly one remote
fetch. -/
def GamepadProxy.nameInvoke (p : GamepadProxy) (st : BusState) :
    Except RemoteCallError String × List PropertyGetRequest :=
  (p.name st, [p.nameRequest])

/-- Two successive invocations of the accessor against an unchanged
remote state: both results, and the concatenated wire trace. -/
def GamepadProxy.nameTwice (p : GamepadProxy) (st : BusState) :
    (Except RemoteCallError String × Except RemoteCallError String) ×
      List PropertyGetRequest :=
  (((p.nameInvoke st).1, (p.nameInvoke st).1), (p.nameInvoke st).2 ++ (p.nameInvoke st).2)

/-- The receiver of a Rust trait method. -/
inductive Receiver where
  | ref
  | refMut
  | owned
deriving DecidableEq

/-- The payload type of a `zbus::Result` return, as far as this
declaration uses it. -/
inductive RustType where
  | string
  | unit
  | otherTy
deriving DecidableEq

/-- An item of a zbus proxy trait: a `#[zbus(property)]` getter,
a `#[zbus(property)]` setter, a plain method, or a
`#[zbus(signal)]` declaration. -/
inductive TraitItem where
  | propertyGetter (rustName : String) (recv : Receiver) (ret : RustType)
  | propertySetter (rustName : String) (ty : RustType)
  | methodItem (rustName : String)
  | signalItem (rustName : String)
deriving DecidableEq

/-- Access mode of a D-Bus property. -/
inductive Access where
  | read
  | readwrite
deriving DecidableEq

/-- A member of the D-Bus interface exposed by a proxy. -/
inductive Member where
  | property (dbusName : String) (ty : RustType) (access : Access)
  | methodMember (dbusName : String)
  | signalMember (dbusName : String)
deriving DecidableEq

/-- Split a character list on underscores. -/
def splitUnderscore : List Char → List (List Char)
  | [] => [[]]
  | c :: cs =>
    let rest := splitUnderscore cs
    if c = '_' then [] :: rest
    else
      match rest with
      | [] => [[c]]
      | w :: ws => (c :: w) :: ws

/-- Uppercase the first character of a word. -/
def capitalizeChars : List Char → List Char
  | [] => []
  | c :: cs => c.toUpper :: cs

/-- The snake_case to PascalCase conversion zbus applies to Rust item
names to obtain D-Bus member names (`name` becomes `Name`). -/
def pascalCase (s : String) : String :=
  String.mk (((splitUnderscore s.data).map capitalizeChars).flatten)

/-- Whether the trait declares a property setter for the given Rust
property name. -/
def hasSetter (items : List TraitItem) (n : String) : Bool :=
  items.any fun i =>
    match i with
    | TraitItem.propertySetter m _ => m = n
    | _ => false

/-- Modelled from the spec: the D-Bus member a single trait item
contributes under the zbus proxy macro.  A getter yields a property
member, read-only when no setter for the same name is declared; a
setter is folded into its getter's member; methods and signals map to
members of their own kinds. -/
def memberOf (items : List TraitItem) : TraitItem → Option Member
  | TraitItem.propertyGetter n _ t =>
    some (Member.property (pascalCase n) t
      (if hasSetter items n then Access.readwrite else Access.read))
  | TraitItem.propertySetter _ _ => none
  | TraitItem.methodItem n => some (Member.methodMember (pascalCase n))
  | TraitItem.signalItem n => some (Member.signalMember (pascalCase n))

/-- The full member list of the D-Bus interface generated from a
proxy trait declaration. -/
def membersOf (items : List TraitItem) : List Member :=
  items.filterMap (memberOf items)

/-- Transcribed from gamepad.rs: the body of `trait Gamepad` holds
exactly one item, `#[zbus(property)] fn name(&self) ->
zbus::Result<String>`. -/
def Gamepad.items : List TraitItem :=
  [TraitItem.propertyGetter "name" Receiver.ref RustType.string]

/-- The blocking proxy value generated alongside the asynchronous one
(zbus emits both `GamepadProxy` and `GamepadProxyBlocking` from the
same declaration). -/
structure GamepadProxyBlocking where
  conn : Nat
  service : String
  path : String
deriving DecidableEq

/-- Modelled from the spec: the blocking accessor generated for
`fn name(&self) -> zbus::Result<String>`.  It performs the same
property fetch as the asynchronous accessor, synchronously: one
property-get for `Name` at the proxy's addressing triple, the reply
decoded as a string. -/
def GamepadProxyBlocking.name (p : GamepadProxyBlocking) (st : BusState) :
    Except RemoteCallError String :=
  match getProperty st ⟨p.service, p.path, Gamepad.interface⟩ "Name" with
  | Except.error e => Except.error e
  | Except.ok (DBusValue.str s) => Except.ok s
  | Except.ok DBusValue.nonString => Except.error ⟨ErrorCause.decodeFailure⟩

/-- Modelled from the spec: the complete effect of one accessor call
on the world — the result, the proxy afterwards, and the bus state
afterwards.  Reading the property mutates neither; the connection is
only borrowed. -/
def GamepadProxy.nameStep (p : GamepadProxy) (st : BusState) :
    Except RemoteCallError String × GamepadProxy × BusState :=
  (p.name st, p, st)

/-- A concrete remote object whose `Name` property at the Gamepad
interface is the string `"Test Gamepad"`. -/
def testObject : RemoteObject :=
  ⟨[((Gamepad.interface, "Name"), DBusValue.str "Test Gamepad")]⟩

/-- A concrete bus state with the test object at the declared default
service and path. -/
def testBus : BusState :=
  ⟨true, [((Gamepad.default_service, Gamepad.default_path), testObject)]⟩

/-- A concrete remote object reporting the empty string for `Name`. -/
def emptyNameObject : RemoteObject :=
  ⟨[((Gamepad.interface, "Name"), DBusValue.str "")]⟩

/-- A concrete bus state with the empty-name object at the default
address. -/
def emptyNameBus : BusState :=
  ⟨true, [((Gamepad.default_service, Gamepad.default_path), emptyNameObject)]⟩

/-- A concrete bus state whose connection is down. -/
def downBus : BusState := ⟨false, []⟩

/-- A concrete bus state equal to `testBus` except for an extra,
unrelated object: the reply to the `Name` request is unchanged. -/
def testBusExtra : BusState :=
  ⟨true, [((Gamepad.default_service, Gamepad.default_path), testObject),
          (("org.other.Service", "/org/other/obj"), ⟨[]⟩)]⟩

/-- Evaluation lemma: the `name` accessor as a case split over the
bus state seen from the proxy's address. -/
theorem gamepad_name_unfold (p : GamepadProxy) (st : BusState) :
    p.name st =
      (if st.connected then
        match lookupKey st.objects (p.service, p.path) with
        | none => Except.error ⟨ErrorCause.objectNotFound⟩
        | some obj =>
          match lookupKey obj.props (Gamepad.interface, "Name") with
          | none => Except.error ⟨ErrorCause.propertyNotImplemented⟩
          | some (DBusValue.str s) => Except.ok s
          | some DBusValue.nonString => Except.error ⟨ErrorCause.decodeFailure⟩
      else Except.error ⟨ErrorCause.connectionUnavailable⟩) := by
  unfold GamepadProxy.name busReply getProperty GamepadProxy.nameRequest GamepadProxy.addr
  cases hc : st.connected with
  | false => simp
  | true =>
    simp only [if_true]
    cases ho : lookupKey st.objects (p.service, p.path) with
    | none => simp
    | some obj =>
      cases hp : lookupKey obj.props (Gamepad.interface, "Name") with
      | none => simp [hp, decodeString]
      | some v => cases v <;> simp [hp, decodeString]

/-- Evaluation lemma specialized to a proxy constructed with the
declared defaults. -/
theorem gamepad_name_new_unfold (conn : Nat) (st : BusState) :
    (GamepadProxy.new conn).name st =
      (if st.connected then
        match lookupKey st.objects (Gamepad.default_service, Gamepad.default_path) with
        | none => Except.error ⟨ErrorCause.objectNotFound⟩
        | some obj =>
          match lookupKey obj.props (Gamepad.interface, "Name") with
          | none => Except.error ⟨ErrorCause.propertyNotImplemented⟩
          | some (DBusValue.str s) => Except.ok s
          | some DBusValue.nonString => Except.error ⟨ErrorCause.decodeFailure⟩
      else Except.error ⟨ErrorCause.connectionUnavailable⟩) :=
  gamepad_name_unfold (GamepadProxy.new conn) st

/-- Claim C1: the Gamepad proxy is bound to exactly the addressing
triple interface `org.shadowblip.Input.Gamepad`, default service
`org.shadowblip.InputPlumber`, default object path
`/org/shadowblip/InputPlumber/devices/target/gamepad0`, and every
request issued by the name accessor carries exactly these
identifiers. -/
theorem gamepad_addressing_contract :
    Gamepad.interface = "org.shadowblip.Input.Gamepad" ∧
    Gamepad.default_service = "org.shadowblip.InputPlumber" ∧
    Gamepad.default_path = "/org/shadowblip/InputPlumber/devices/target/gamepad0" ∧
    ∀ (conn : Nat) (st : BusState),
      ((GamepadProxy.new conn).nameInvoke st).2 =
        [⟨⟨"org.shadowblip.InputPlumber",
           "/org/shadowblip/InputPlumber/devices/target/gamepad0",
           "org.shadowblip.Input.Gamepad"⟩, "Name"⟩] :=
  ⟨rfl, rfl, rfl, fun _ _ => rfl⟩

/-- Claim C2: for every bus state in which the remote object at the
fixed service/path/interface triple reports a string value s for the
Name property, the name accessor returns exactly s, untransformed. -/
theorem gamepad_name_returns_reported (conn : Nat) (st : BusState)
    (obj : RemoteObject) (s : String)
    (hconn : st.connected = true)
    (hobj : lookupKey st.objects (Gamepad.default_service, Gamepad.default_path) = some obj)
    (hprop : lookupKey obj.props (Gamepad.interface, "Name") = some (DBusValue.str s)) :
    (GamepadProxy.new conn).name st = Except.ok s := by
  rw [gamepad_name_new_unfold]
  simp [hconn, hobj, hprop]

/-- Witness for C2 at the concrete state reporting "Test Gamepad". -/
theorem gamepad_name_returns_reported_witness :
    (GamepadProxy.new 0).name testBus = Except.ok "Test Gamepad" :=
  gamepad_name_returns_reported 0 testBus testObject "Test Gamepad" rfl (by decide) (by decide)

/-- Claim C3: the name accessor fails exactly when the connection is
unavailable, the remote object is absent at the path, the Name
property is not implemented there, or the value does not decode as a
string; in all other cases it returns the decoded string, never a
default or empty fallback. -/
theorem gamepad_name_failure_characterization (conn : Nat) (st : BusState) :
    ((∃ e, (GamepadProxy.new conn).name st = Except.error e) ↔
      st.connected = false ∨
      lookupKey st.objects (Gamepad.default_service, Gamepad.default_path) = none ∨
      (∃ obj,
        lookupKey st.objects (Gamepad.default_service, Gamepad.default_path) = some obj ∧
        lookupKey obj.props (Gamepad.interface, "Name") = none) ∨
      (∃ obj,
        lookupKey st.objects (Gamepad.default_service, Gamepad.default_path) = some obj ∧
        lookupKey obj.props (Gamepad.interface, "Name") = some DBusValue.nonString)) ∧
    ∀ obj s,
      st.connected = true →
      lookupKey st.objects (Gamepad.default_service, Gamepad.default_path) = some obj →
      lookupKey obj.props (Gamepad.interface, "Name") = some (DBusValue.str s) →
      (GamepadProxy.new conn).name st = Except.ok s := by
  have h := gamepad_name_new_unfold conn st
  constructor
  · cases hc : st.connected with
    | false => simp [h, hc]
    | true =>
      cases ho : lookupKey st.objects (Gamepad.default_service, Gamepad.default_path) with
      | none => simp [h, hc, ho]
      | some obj =>
        cases hp : lookupKey obj.props (Gamepad.interface, "Name") with
        | none => simp [h, hc, ho, hp]
        | some v => cases v <;> simp [h, hc, ho, hp]
  · intro obj s hc ho hp
    rw [h]
    simp [hc, ho, hp]

/-- Witness for C3: on a concrete state where the object reports a
string, the accessor succeeds with that string. -/
theorem gamepad_name_failure_characterization_witness :
    (GamepadProxy.new 1).name testBus = Except.ok "Test Gamepad" :=
  (gamepad_name_failure_characterization 1 testBus).2 testObject "Test Gamepad"
    rfl (by decide) (by decide)

/-- Claim C4: every failure is surfaced as the single RemoteCallError
kind with its cause embedded; a failing reply is propagated to the
caller unmodified, there is no retry (exactly one request per
invocation) and no partial result. -/
theorem gamepad_error_uniform_propagation (p : GamepadProxy) (st : BusState) :
    (∀ e : RemoteCallError,
      busReply st p.nameRequest = Except.error e → p.name st = Except.error e) ∧
    (p.nameInvoke st).2.length = 1 ∧
    (∀ e : RemoteCallError, p.name st = Except.error e →
      e.cause = ErrorCause.connectionUnavailable ∨
      e.cause = ErrorCause.objectNotFound ∨
      e.cause = ErrorCause.propertyNotImplemented ∨
      e.cause = ErrorCause.decodeFailure) := by
  refine ⟨?_, rfl, ?_⟩
  · intro e h
    unfold GamepadProxy.name
    rw [h]
  · intro e _
    cases e with
    | mk c => cases c <;> simp

/-- Witness for C4 at a disconnected bus: the connection failure is
propagated as-is. -/
theorem gamepad_error_uniform_propagation_witness :
    (GamepadProxy.new 0).name downBus =
      Except.error ⟨ErrorCause.connectionUnavailable⟩ :=
  (gamepad_error_uniform_propagation (GamepadProxy.new 0) downBus).1
    ⟨ErrorCause.connectionUnavailable⟩ rfl

/-- Claim C5: the Name value is not cached by the proxy — each of two
successive invocations puts its own property-get request on the wire,
and against an unchanged remote state both invocations return the
same string. -/
theorem gamepad_name_no_caching (p : GamepadProxy) (st : BusState) :
    (p.nameTwice st).2 = [p.nameRequest, p.nameRequest] ∧
    (p.nameTwice st).1.1 = (p.nameTwice st).1.2 :=
  ⟨rfl, rfl⟩

/-- Claim C6: the name accessor mutates nothing — after the call the
proxy (connection handle and addressing data) and the bus state are
identical to their values before the call. -/
theorem gamepad_name_frame (p : GamepadProxy) (st : BusState) :
    (p.nameStep st).2.1 = p ∧ (p.nameStep st).2.2 = st ∧
    (p.nameStep st).2.1.conn = p.conn :=
  ⟨rfl, rfl, rfl⟩

/-- Claim C7: the interface generated from `trait Gamepad` exposes
exactly one member, the read-only string-typed Name property; no
methods and no signals. -/
theorem gamepad_single_readonly_property :
    membersOf Gamepad.items =
      [Member.property "Name" RustType.string Access.read] := by
  decide

/-- Claim C8: the asynchronous and the blocking accessor generated
from the same declaration agree on every fixed remote state: same
string on success, same error on failure. -/
theorem gamepad_async_blocking_agree (conn : Nat) (service path : String)
    (st : BusState) :
    GamepadProxy.name ⟨conn, service, path⟩ st =
      GamepadProxyBlocking.name ⟨conn, service, path⟩ st := by
  unfold GamepadProxy.name GamepadProxyBlocking.name busReply
    GamepadProxy.nameRequest GamepadProxy.addr
  cases h : getProperty st ⟨service, path, Gamepad.interface⟩ "Name" with
  | error e => simp [h, decodeString]
  | ok v => cases v <;> simp [h, decodeString]

/-- Claim C9: the accessor is deterministic in the reply — whenever
the bus delivers identical replies to the Name request in two runs,
the accessor produces identical results. -/
theorem gamepad_name_deterministic (p : GamepadProxy) (st1 st2 : BusState)
    (h : busReply st1 p.nameRequest = busReply st2 p.nameRequest) :
    p.name st1 = p.name st2 := by
  unfold GamepadProxy.name
  rw [h]

/-- Witness for C9: two different bus states delivering the same
reply yield the same result. -/
theorem gamepad_name_deterministic_witness :
    (GamepadProxy.new 0).name testBus = (GamepadProxy.new 0).name testBusExtra :=
  gamepad_name_deterministic (GamepadProxy.new 0) testBus testBusExtra rfl

/-- Claim C10: no validation is applied to the decoded value — every
reported string, the empty string included, comes back unchanged as a
success and is never turned into an error. -/
theorem gamepad_name_no_validation (conn : Nat) (st : BusState)
    (obj : RemoteObject) (s : String)
    (hconn : st.connected = true)
    (hobj : lookupKey st.objects (Gamepad.default_service, Gamepad.default_path) = some obj)
    (hprop : lookupKey obj.props (Gamepad.interface, "Name") = some (DBusValue.str s)) :
    (GamepadProxy.new conn).name st = Except.ok s ∧
    ∀ e, (GamepadProxy.new conn).name st ≠ Except.error e := by
  have h : (GamepadProxy.new conn).name st = Except.ok s := by
    rw [gamepad_name_new_unfold]
    simp [hconn, hobj, hprop]
  exact ⟨h, fun e he => by rw [h] at he; exact Except.noConfusion he⟩

/-- Witness for C10 at a state reporting the empty string: the empty
string is a success value. -/
theorem gamepad_name_no_validation_witness :
    (GamepadProxy.new 0).name emptyNameBus = Except.ok "" ∧
    ∀ e, (GamepadProxy.new 0).name emptyNameBus ≠ Except.error e :=
  gamepad_name_no_validation 0 emptyNameBus emptyNameObject ""
    rfl (by decide) (by decide)

end OpenGamepadUI
